import Mathlib

/-!
Verification development for the Documentation-Generator repository
(single source file `main.py`).

The embedding below translates, line by line, the pieces of `main.py` that
the specification's claims are about:

  * `validate_code_input`    (main.py lines 27-31)
  * `generate_documentation` (main.py lines 179-206)
  * `generate_docstring`     (main.py lines 208-233)
  * `_parse_documentation`   (main.py lines 235-288), embedded as
    `parse_documentation`
  * the interactive-menu generation fragment (main.py lines 353-374),
    embedded as `menuGenerateDocumentation`, and the `--file` CLI path
    (main.py lines 462-474), embedded as `cliGenerateDocumentation`.

Python strings are modelled as Lean `String` (in this toolchain a list of
characters), and the handful of Python string primitives the code uses
(`str.strip`, `str.startswith`, `str.endswith('\n')`, `str.split('\n')`,
`s[1:]`) are embedded as executable functions over `String.data`.

A crucial point of faithfulness: in `_parse_documentation` the dictionary
entry `sections["improvements"]` is initialized to the *string* `""` and is
never reassigned to a list anywhere in the function, yet lines 270 and 286
call `.append(...)` on it.  In Python, `str` has no attribute `append`, so
those two statements raise `AttributeError` whenever they are reached
(i.e. whenever a pending improvement bullet is finalized).  The embedding
therefore returns `Except String Sections`, with `Except.error attrErr`
exactly at those two program points; every other path is total.
-/

/-- Decidable equality for `Except`, needed to evaluate the embedded
parser on concrete inputs. -/
instance {ε α : Type} [DecidableEq ε] [DecidableEq α] : DecidableEq (Except ε α) := fun a b =>
  match a, b with
  | Except.error e, Except.error f => decidable_of_iff (e = f) (by simp)
  | Except.error _, Except.ok _ => isFalse (fun h => Except.noConfusion h)
  | Except.ok _, Except.error _ => isFalse (fun h => Except.noConfusion h)
  | Except.ok s, Except.ok t => decidable_of_iff (s = t) (by simp)

/-- Characters stripped by Python `str.strip()` (ASCII whitespace). -/
def isPyWs (c : Char) : Bool :=
  c == ' ' || c == '\t' || c == '\n' || c == '\r' || c == '\x0b' || c == '\x0c'

/-- Embedding of Python `s.strip()`: drop leading and trailing whitespace. -/
def pyStrip (s : String) : String :=
  ⟨((s.data.dropWhile isPyWs).reverse.dropWhile isPyWs).reverse⟩

/-- Embedding of Python `s.startswith(p)`. -/
def pyStartswith (s p : String) : Bool :=
  p.data.isPrefixOf s.data

/-- Embedding of Python `s.endswith('\n')`: the last character is a newline. -/
def pyEndswithNL (s : String) : Bool :=
  s.data.getLast? == some '\n'

/-- Embedding of Python `s[1:]`. -/
def pyDropFirst (s : String) : String :=
  ⟨s.data.drop 1⟩

/-- Splitting a character list at every newline; `splitNLData [] = [[]]`,
matching Python `"".split('\n') == [""]`. -/
def splitNLData : List Char → List (List Char)
  | [] => [[]]
  | c :: cs =>
    match splitNLData cs with
    | [] => [[]]
    | h :: t => if c == '\n' then [] :: h :: t else (c :: h) :: t

/-- Embedding of Python `s.split('\n')`. -/
def pySplitNL (s : String) : List String :=
  (splitNLData s.data).map (fun cs => ⟨cs⟩)

/-- Joining a list of strings with single newline separators (no trailing
separator); used to state what the accumulation loop of the parser builds. -/
def joinNL : List String → String
  | [] => ""
  | [l] => l
  | l :: l2 :: ls => l ++ "\n" ++ joinNL (l2 :: ls)

/-- The five section keys of the `sections` dictionary of
`_parse_documentation` (main.py lines 237-243). -/
inductive SecName where
  | overview
  | functions
  | parameters
  | examples
  | improvements
deriving DecidableEq, Repr

/-- The `sections` dictionary built by `_parse_documentation`.  All five
values start as strings (main.py lines 237-243); `improvements` is never
reassigned to a list anywhere in the function, so it stays a string on
every path that returns. -/
structure Sections where
  overview : String
  functions : String
  parameters : String
  examples : String
  improvements : String
deriving DecidableEq, Repr

/-- Initial value of the `sections` dictionary (main.py lines 237-243). -/
def initSections : Sections :=
  ⟨"", "", "", "", ""⟩

/-- Loop state of `_parse_documentation`: the `sections` dictionary, the
`current_section` variable, and the `improvement_point` buffer
(main.py lines 245-246). -/
structure PState where
  secs : Sections
  current : SecName
  improvementPoint : String
deriving DecidableEq, Repr

/-- The exception raised at main.py lines 270 and 286: calling `.append` on
the string value `sections["improvements"]`. -/
def attrErr : String :=
  "AttributeError: str object has no attribute append"

/-- Embedding of the accumulation step of main.py lines 280-282:
add a newline separator when the accumulator is non-empty and does not
already end in a newline, then concatenate the line. -/
def appendLine (acc line : String) : String :=
  (if acc != "" && !pyEndswithNL acc then acc ++ "\n" else acc) ++ line

/-- Writing an accumulated line into the field selected by
`current_section` (the `else` block of main.py lines 277-282).
`parseLine` only reaches this with a non-`improvements` section. -/
def appendTo (s : Sections) (sec : SecName) (line : String) : Sections :=
  match sec with
  | SecName.overview => { s with overview := appendLine s.overview line }
  | SecName.functions => { s with functions := appendLine s.functions line }
  | SecName.parameters => { s with parameters := appendLine s.parameters line }
  | SecName.examples => { s with examples := appendLine s.examples line }
  | SecName.improvements => { s with improvements := appendLine s.improvements line }

/-- The branch chain of one iteration of the
`for line in raw_response.split('\n')` loop of `_parse_documentation`
(main.py lines 250-282), applied to the already-stripped line, with the
branches in the source's order: skip empty lines; the five header checks
(the fifth also accepting the prefix `Improvements:`); the bullet branch,
which raises `AttributeError` when a pending bullet must be finalized
(main.py line 270); the continuation branch; and default accumulation. -/
def parseStrippedLine (st : PState) (line : String) : Except String PState :=
  if line = "" then Except.ok st
  else if pyStartswith line "1. Brief Overview:" then
    Except.ok { st with current := SecName.overview }
  else if pyStartswith line "2. Detailed Function Documentation:" then
    Except.ok { st with current := SecName.functions }
  else if pyStartswith line "3. Parameters and Return Values:" then
    Except.ok { st with current := SecName.parameters }
  else if pyStartswith line "4. Usage Examples:" then
    Except.ok { st with current := SecName.examples }
  else if pyStartswith line "5. Any potential improvements" || pyStartswith line "Improvements:" then
    Except.ok { st with current := SecName.improvements }
  else if pyStartswith line "-" ∧ st.current = SecName.improvements then
    if st.improvementPoint ≠ "" then Except.error attrErr
    else Except.ok { st with improvementPoint := pyStrip (pyDropFirst line) }
  else if st.current = SecName.improvements then
    Except.ok (if st.improvementPoint ≠ "" then
      { st with improvementPoint := st.improvementPoint ++ " " ++ line }
    else st)
  else
    Except.ok { st with secs := appendTo st.secs st.current line }

/-- One full loop iteration: `line = line.strip()` (main.py line 249)
followed by the branch chain on the stripped line. -/
def parseLine (st : PState) (rawLine : String) : Except String PState :=
  parseStrippedLine st (pyStrip rawLine)

/-- The loop of `_parse_documentation` followed by the final flush of
`improvement_point` (main.py lines 284-288), which again calls `.append`
on the string `sections["improvements"]` and hence raises whenever the
buffer is non-empty. -/
def parseLines : PState → List String → Except String Sections
  | st, [] =>
    if st.improvementPoint ≠ "" then Except.error attrErr else Except.ok st.secs
  | st, l :: ls =>
    match parseLine st l with
    | Except.error e => Except.error e
    | Except.ok st₁ => parseLines st₁ ls

/-- Embedding of `_parse_documentation` (main.py lines 235-288). -/
def parse_documentation (raw : String) : Except String Sections :=
  parseLines ⟨initSections, SecName.overview, ""⟩ (pySplitNL raw)

/-- The six line prefixes that switch `current_section`
(main.py lines 253-267). -/
def isHeaderLine (t : String) : Bool :=
  pyStartswith t "1. Brief Overview:" ||
  pyStartswith t "2. Detailed Function Documentation:" ||
  pyStartswith t "3. Parameters and Return Values:" ||
  pyStartswith t "4. Usage Examples:" ||
  pyStartswith t "5. Any potential improvements" ||
  pyStartswith t "Improvements:"

/-- Rendering an improvements list as bullet lines, one `- item` per line,
as in §8 of the specification (and main.py lines 90-92 and 401-402). -/
def renderBullets (items : List String) : String :=
  joinNL (items.map (fun i => "- " ++ i))

/-- Outcome of one request to the OpenAI chat-completions client: either
the response text or a raised exception carrying a message (`str(e)`). -/
inductive ModelResult where
  | success (text : String)
  | failure (message : String)
deriving DecidableEq, Repr

/-- The model client as an external collaborator: a function from the
system prompt and the user prompt to an outcome (the temperature is the
constant 0.7 in both call sites and is omitted). -/
abbrev ModelClient : Type :=
  String → String → ModelResult

/-- System prompt of `generate_documentation` (main.py line 195). -/
def docSystemPrompt : String :=
  "You are an expert programmer who specializes in writing clear, comprehensive code documentation."

/-- The user prompt of `generate_documentation` (main.py lines 181-189),
a verbatim transcription of the f-string including its indentation. -/
def docPrompt (language code : String) : String :=
  "Analyze this " ++ language ++ " code and provide the following:\n        1. A brief overview of what the code does\n        2. Detailed function documentation\n        3. Parameters and return values\n        4. Usage examples\n        5. Any potential improvements or considerations\n        \n        Code to analyze:\n        " ++ code

/-- System prompt of `generate_docstring` (main.py line 224). -/
def docstringSystemPrompt : String :=
  "You are an expert at writing clear, comprehensive function docstrings."

/-- Embedding of `styles.get(style, 'using standard docstrings')`
(main.py lines 210-216). -/
def styleDescription (style : String) : String :=
  if style = "google" then "using Google style docstrings"
  else if style = "numpy" then "using NumPy style docstrings"
  else if style = "sphinx" then "using Sphinx style docstrings"
  else "using standard docstrings"

/-- The user prompt of `generate_docstring` (main.py lines 216-218). -/
def docstringPrompt (style code : String) : String :=
  "Write a comprehensive docstring for this function " ++ styleDescription style ++ ":\n        \n        " ++ code

/-- Result of `generate_documentation`: either the parsed `sections`
dictionary (five section keys) or the single-key error dictionary
`{"error": message}` built at main.py line 206.  The two dictionary shapes
are disjoint, which the two constructors encode. -/
inductive DocResult where
  | doc (s : Sections)
  | errorDoc (message : String)
deriving DecidableEq, Repr

/-- Embedding of `generate_documentation` (main.py lines 179-206).  The
`try` block wraps both the client call and `_parse_documentation`, so a
raised exception from either — including the parser's `AttributeError` —
is converted into the error dictionary and never propagated. -/
def generate_documentation (client : ModelClient) (code language : String) : DocResult :=
  match client docSystemPrompt (docPrompt language code) with
  | ModelResult.success text =>
    match parse_documentation text with
    | Except.ok secs => DocResult.doc secs
    | Except.error e => DocResult.errorDoc ("Failed to generate documentation: " ++ e)
  | ModelResult.failure msg => DocResult.errorDoc ("Failed to generate documentation: " ++ msg)

/-- Embedding of `generate_docstring` (main.py lines 208-233): on success
the stripped response text, on a raised exception the in-band string
built at main.py line 233. -/
def generate_docstring (client : ModelClient) (code style : String) : String :=
  match client docstringSystemPrompt (docstringPrompt style code) with
  | ModelResult.success text => pyStrip text
  | ModelResult.failure msg => "Failed to generate docstring: " ++ msg

/-- Embedding of `validate_code_input` (main.py lines 27-31). -/
def validate_code_input (code : String) : Bool × String :=
  if pyStrip code = "" then (false, "Code input cannot be empty") else (true, "")

/-- The interactive-menu generation fragment (main.py lines 353-374):
`validate_code_input` runs first and an invalid input takes the
input-error path (`Except.error` with the validation message) without the
model client ever being consulted; only a valid input reaches
`generate_documentation`. -/
def menuGenerateDocumentation (client : ModelClient) (code language : String) : Except String DocResult :=
  match validate_code_input code with
  | (false, msg) => Except.error msg
  | (true, _) => Except.ok (generate_documentation client code language)

/-- The `--file` CLI path (main.py lines 462-474): the file contents are
passed to `generate_documentation` directly, with no call to
`validate_code_input` anywhere on the path. -/
def cliGenerateDocumentation (client : ModelClient) (code language : String) : DocResult :=
  generate_documentation client code language

/-- A string is non-empty exactly when its character list is non-empty. -/
theorem str_ne_empty_iff (s : String) : s ≠ "" ↔ s.data ≠ [] := by
  constructor
  · intro h hd
    apply h
    cases s with
    | mk data =>
      cases hd
      rfl
  · intro h he
    apply h
    rw [he]

/-- Prepending the empty string is the identity. -/
theorem empty_append_str (s : String) : "" ++ s = s := by
  cases s
  rfl

/-- The head surviving `dropWhile` fails the predicate. -/
theorem head?_dropWhile_false (p : Char → Bool) :
    ∀ (xs : List Char) (c : Char), (xs.dropWhile p).head? = some c → p c = false := by
  intro xs
  induction xs with
  | nil => intro c h; simp [List.dropWhile] at h
  | cons x xs ih =>
    intro c h
    by_cases hx : p x
    · rw [List.dropWhile_cons_of_pos hx] at h
      exact ih c h
    · rw [List.dropWhile_cons_of_neg hx] at h
      simp at h
      rw [← h]
      exact Bool.of_not_eq_true hx

/-- A non-empty stripped string does not end with a newline: `pyStrip`
removes every trailing whitespace character and `'\n'` is whitespace. -/
theorem pyStrip_not_endswithNL (s : String) (h : pyStrip s ≠ "") :
    pyEndswithNL (pyStrip s) = false := by
  rw [str_ne_empty_iff] at h
  unfold pyStrip at h ⊢
  unfold pyEndswithNL
  simp only [List.getLast?_reverse]
  cases hh : (((s.data.dropWhile isPyWs).reverse).dropWhile isPyWs).head? with
  | none =>
    exfalso
    apply h
    simp [List.head?_eq_none_iff.mp hh]
  | some c =>
    have hc : isPyWs c = false := head?_dropWhile_false isPyWs _ c hh
    have : c ≠ '\n' := by
      intro he
      rw [he] at hc
      simp [isPyWs] at hc
    simp [this]

/-- Joining after an already-joined head regroups by associativity. -/
theorem joinNL_append_head (a l : String) (fl : List String) :
    joinNL ((a ++ "\n" ++ l) :: fl) = a ++ "\n" ++ joinNL (l :: fl) := by
  cases fl with
  | nil => rfl
  | cons f fl => simp [joinNL, String.append_assoc]

/-- On a non-empty accumulator that does not end in a newline,
`appendLine` inserts a single newline separator. -/
theorem appendLine_of_ne (acc l : String) (h : acc ≠ "") (hend : pyEndswithNL acc = false) :
    appendLine acc l = acc ++ "\n" ++ l := by
  unfold appendLine
  have hb : (acc != "") = true := by simp [h]
  rw [hb, hend]
  simp [String.append_assoc]

/-- Folding `appendLine` over non-empty lines that do not end in newlines
is exactly newline-joining, starting from such an accumulator. -/
theorem foldl_appendLine (fl : List String)
    (hf : ∀ l ∈ fl, l ≠ "" ∧ pyEndswithNL l = false) :
    ∀ acc : String, acc ≠ "" → pyEndswithNL acc = false →
      fl.foldl appendLine acc = joinNL (acc :: fl) := by
  induction fl with
  | nil => intro acc _ _; rfl
  | cons l fl ih =>
    intro acc hacc hend
    have hl := hf l (List.mem_cons_self l fl)
    have hfl : ∀ x ∈ fl, x ≠ "" ∧ pyEndswithNL x = false := fun x hx =>
      hf x (List.mem_cons_of_mem l hx)
    rw [List.foldl_cons, appendLine_of_ne acc l hacc hend]
    have hne : acc ++ "\n" ++ l ≠ "" := by
      rw [str_ne_empty_iff]
      simp [String.data_append]
    have hnend : pyEndswithNL (acc ++ "\n" ++ l) = false := by
      unfold pyEndswithNL at hl ⊢
      rw [String.data_append]
      rw [List.getLast?_append_of_ne_nil]
      · exact hl.2
      · rw [← str_ne_empty_iff]
        exact hl.1
    rw [ih hfl (acc ++ "\n" ++ l) hne hnend]
    exact joinNL_append_head acc l fl

/-- Folding `appendLine` from the empty accumulator newline-joins the
lines. -/
theorem foldl_appendLine_empty (fl : List String)
    (hf : ∀ l ∈ fl, l ≠ "" ∧ pyEndswithNL l = false) :
    fl.foldl appendLine "" = joinNL fl := by
  cases fl with
  | nil => rfl
  | cons l fl =>
    have hl := hf l (List.mem_cons_self l fl)
    have hfl : ∀ x ∈ fl, x ≠ "" ∧ pyEndswithNL x = false := fun x hx =>
      hf x (List.mem_cons_of_mem l hx)
    rw [List.foldl_cons]
    have h0 : appendLine "" l = l := by
      unfold appendLine
      simp [empty_append_str]
    rw [h0]
    exact foldl_appendLine fl hfl l hl.1 hl.2

/-- Behaviour of one loop iteration on a non-header line while the
current section is `overview` and no bullet is pending: an empty line is
skipped, any other line is accumulated into `overview`. -/
theorem parseLine_overview_no_header (secs : Sections) (l : String)
    (hh : isHeaderLine (pyStrip l) = false) :
    parseLine ⟨secs, SecName.overview, ""⟩ l =
      Except.ok ⟨if pyStrip l = "" then secs else appendTo secs SecName.overview (pyStrip l),
        SecName.overview, ""⟩ := by
  simp only [isHeaderLine, Bool.or_eq_false_iff] at hh
  obtain ⟨⟨⟨⟨⟨h1, h2⟩, h3⟩, h4⟩, h5⟩, h6⟩ := hh
  by_cases he : pyStrip l = ""
  · simp [parseLine, parseStrippedLine, he]
  · simp [parseLine, parseStrippedLine, he, h1, h2, h3, h4, h5, h6]

/-- The scan of a line list containing no recognized header, started in
the `overview` section with no pending bullet, accumulates exactly the
non-empty stripped lines into `overview` and leaves every other field of
the sections dictionary unchanged. -/
theorem parseLines_no_header :
    ∀ (ls : List String), (∀ l ∈ ls, isHeaderLine (pyStrip l) = false) →
      ∀ secs : Sections,
        parseLines ⟨secs, SecName.overview, ""⟩ ls =
          Except.ok { secs with
            overview := ((ls.map pyStrip).filter (fun t => t != "")).foldl appendLine secs.overview } := by
  intro ls
  induction ls with
  | nil =>
    intro _ secs
    simp [parseLines]
  | cons l ls ih =>
    intro h secs
    have hl := h l (List.mem_cons_self l ls)
    have hls : ∀ x ∈ ls, isHeaderLine (pyStrip x) = false := fun x hx =>
      h x (List.mem_cons_of_mem l hx)
    by_cases he : pyStrip l = ""
    · rw [show parseLines ⟨secs, SecName.overview, ""⟩ (l :: ls)
          = parseLines ⟨secs, SecName.overview, ""⟩ ls by
        simp [parseLines, parseLine_overview_no_header secs l hl, he]]
      rw [ih hls secs]
      simp [he]
    · rw [show parseLines ⟨secs, SecName.overview, ""⟩ (l :: ls)
          = parseLines ⟨appendTo secs SecName.overview (pyStrip l), SecName.overview, ""⟩ ls by
        simp [parseLines, parseLine_overview_no_header secs l hl, he]]
      rw [ih hls (appendTo secs SecName.overview (pyStrip l))]
      have hbe : (pyStrip l != "") = true := by simp [he]
      simp [appendTo, he, hbe]

/-- Accumulating into any of the four free-text sections leaves the
`improvements` entry unchanged. -/
theorem appendTo_improvements (s : Sections) (sec : SecName) (l : String)
    (h : ¬ sec = SecName.improvements) :
    (appendTo s sec l).improvements = s.improvements := by
  cases sec with
  | overview => rfl
  | functions => rfl
  | parameters => rfl
  | examples => rfl
  | improvements => exact absurd rfl h

/-- One loop iteration never changes the `improvements` entry of the
sections dictionary: the only write to it in the source is the `.append`
call, which raises instead of returning. -/
theorem parseLine_ok_improvements (st : PState) (l : String) (st' : PState)
    (h : parseLine st l = Except.ok st') :
    st'.secs.improvements = st.secs.improvements := by
  unfold parseLine parseStrippedLine at h
  split_ifs at h <;>
    first
      | (cases h; rfl)
      | (cases h
         exact appendTo_improvements st.secs st.current (pyStrip l)
           ‹¬ st.current = SecName.improvements›)

/-- The whole scan never changes the `improvements` entry either. -/
theorem parseLines_ok_improvements :
    ∀ (ls : List String) (st : PState) (s : Sections),
      parseLines st ls = Except.ok s → s.improvements = st.secs.improvements := by
  intro ls
  induction ls with
  | nil =>
    intro st s h
    unfold parseLines at h
    split at h
    · cases h
    · cases h; rfl
  | cons l ls ih =>
    intro st s h
    unfold parseLines at h
    cases hp : parseLine st l with
    | error e => rw [hp] at h; cases h
    | ok st₁ =>
      rw [hp] at h
      rw [ih st₁ s h]
      exact parseLine_ok_improvements st l st₁ hp

/-- A prefix relation determines the head character of the larger string. -/
theorem pyStartswith_head (s p : String) (c : Char) (cs : List Char)
    (hp : p.data = c :: cs) (h : pyStartswith s p = true) :
    s.data.head? = some c := by
  unfold pyStartswith at h
  rw [hp] at h
  cases hs : s.data with
  | nil => rw [hs] at h; simp [List.isPrefixOf] at h
  | cons b bs =>
    rw [hs] at h
    simp [List.isPrefixOf] at h
    rw [h.1]
    rfl

/-- A string whose head character differs cannot have the other prefix. -/
theorem pyStartswith_false_of_head (s q : String) (c d : Char)
    (hs : s.data.head? = some c) (hq : q.data.head? = some d) (hne : ¬ c = d) :
    pyStartswith s q = false := by
  cases hb : pyStartswith s q with
  | false => rfl
  | true =>
    exfalso
    cases hqd : q.data with
    | nil => rw [hqd] at hq; simp at hq
    | cons e es =>
      have he := pyStartswith_head s q e es hqd hb
      rw [hqd] at hq
      simp at hq
      rw [hs, hq] at he
      exact hne (Option.some.inj he)

/-- A string with a non-empty prefix is non-empty. -/
theorem pyStartswith_ne_empty (s p : String) (hp : p.data ≠ [])
    (h : pyStartswith s p = true) : s ≠ "" := by
  rw [str_ne_empty_iff]
  intro hs
  unfold pyStartswith at h
  rw [hs] at h
  cases hpd : p.data with
  | nil => exact hp hpd
  | cons c cs => rw [hpd] at h; simp [List.isPrefixOf] at h

/-- Any character list is a prefix of itself followed by anything. -/
theorem isPrefixOf_self_append (l t : List Char) : l.isPrefixOf (l ++ t) = true := by
  induction l with
  | nil => simp [List.isPrefixOf]
  | cons a as ih => simp [List.isPrefixOf, ih]

/-- A concatenation starts with its first operand. -/
theorem pyStartswith_append_self (p s : String) : pyStartswith (p ++ s) p = true := by
  unfold pyStartswith
  rw [String.data_append]
  exact isPrefixOf_self_append p.data s.data

/-- C1: the claim states that `_parse_documentation` returns a
StructuredDocument for every input and never raises.  The code contradicts
this: `sections["improvements"]` is the string `""` and is never
reassigned, so the `.append` call at main.py line 286 raises
`AttributeError` as soon as one improvement bullet is pending — here on
the input `"Improvements:\n- A"`. -/
theorem C1_parser_raises_on_bullet :
    parse_documentation "Improvements:\n- A" = Except.error attrErr := by decide

/-- C2: the claim states that this exact input yields
`improvements == ["First point", "Second point continues here"]`.  The
code instead raises `AttributeError` at main.py line 270 when the second
bullet forces the first pending bullet to be appended to the string
`sections["improvements"]`. -/
theorem C2_bullet_input_raises :
    parse_documentation "5. Any potential improvements or considerations\n- First point\n- Second point continues here" =
      Except.error attrErr := by decide

/-- C3: the claim states that the end-to-end scenario parses to a document
with `improvements = ["Add tests"]`.  The code instead raises
`AttributeError` at main.py line 286 when the final pending bullet
`"Add tests"` is flushed into the string `sections["improvements"]`. -/
theorem C3_end_to_end_raises :
    parse_documentation "1. Brief Overview:\nDoes X.\n2. Detailed Function Documentation:\nfoo() does Y.\n5. Any potential improvements or considerations:\n- Add tests" =
      Except.error attrErr := by decide

/-- C4: for every input string none of whose lines matches a recognized
section-header prefix, the parser attributes the entire non-empty content
to `overview` — the trimmed non-empty lines joined by single newlines in
order of appearance — and every other field stays empty. -/
theorem C4_no_header_all_overview (raw : String)
    (h : ∀ l ∈ pySplitNL raw, isHeaderLine (pyStrip l) = false) :
    parse_documentation raw =
      Except.ok ⟨joinNL (((pySplitNL raw).map pyStrip).filter (fun t => t != "")),
        "", "", "", ""⟩ := by
  unfold parse_documentation
  rw [parseLines_no_header (pySplitNL raw) h initSections]
  have hf : ∀ l ∈ ((pySplitNL raw).map pyStrip).filter (fun t => t != ""),
      l ≠ "" ∧ pyEndswithNL l = false := by
    intro l hl
    rw [List.mem_filter] at hl
    obtain ⟨hm, hb⟩ := hl
    have hne : l ≠ "" := by simpa using hb
    refine ⟨hne, ?_⟩
    rw [List.mem_map] at hm
    obtain ⟨x, _, rfl⟩ := hm
    exact pyStrip_not_endswithNL x hne
  have hj := foldl_appendLine_empty (((pySplitNL raw).map pyStrip).filter (fun t => t != "")) hf
  simp [initSections, hj]

/-- Witness for C4 at the concrete header-free input
`"hello\n  world  \n\n"`. -/
theorem C4_no_header_all_overview_witness :
    (∀ l ∈ pySplitNL "hello\n  world  \n\n", isHeaderLine (pyStrip l) = false) ∧
    parse_documentation "hello\n  world  \n\n" =
      Except.ok ⟨"hello\nworld", "", "", "", ""⟩ :=
  ⟨by decide, by
    have h := C4_no_header_all_overview "hello\n  world  \n\n" (by decide)
    exact h⟩

/-- C5 counterexample: the claim quantifies over every trimmed non-empty
line that does not begin with `-`.  A line matching a recognized header
prefix is such a line, yet while the current section is `improvements`
with a non-empty pending buffer it is discarded by the header branch
(main.py lines 265-267) instead of being appended to the buffer. -/
theorem C5_header_line_not_appended :
    parseLine ⟨initSections, SecName.improvements, "A"⟩ "Improvements: extra details" =
      Except.ok ⟨initSections, SecName.improvements, "A"⟩ ∧
    parseLine ⟨initSections, SecName.improvements, "A"⟩ "Improvements: extra details" ≠
      Except.ok ⟨initSections, SecName.improvements, "A Improvements: extra details"⟩ := by
  refine ⟨by decide, by decide⟩

/-- C5 (amended): while the current section is `improvements`, every
trimmed non-empty line that does not begin with `-` and does not match a
recognized header prefix is appended, space-joined, to the pending
bullet's text when the pending buffer is non-empty, and is dropped
entirely when no bullet has yet been seen. -/
theorem C5_continuation_amended (st : PState) (rawLine : String)
    (hcur : st.current = SecName.improvements)
    (hne : pyStrip rawLine ≠ "")
    (hh : isHeaderLine (pyStrip rawLine) = false)
    (hb : pyStartswith (pyStrip rawLine) "-" = false) :
    parseLine st rawLine =
      Except.ok (if st.improvementPoint ≠ "" then
        { st with improvementPoint := st.improvementPoint ++ " " ++ pyStrip rawLine }
      else st) := by
  simp only [isHeaderLine, Bool.or_eq_false_iff] at hh
  obtain ⟨⟨⟨⟨⟨h1, h2⟩, h3⟩, h4⟩, h5⟩, h6⟩ := hh
  simp [parseLine, parseStrippedLine, hne, h1, h2, h3, h4, h5, h6, hb, hcur]

/-- Witness for the amended C5: a continuation line is space-joined onto
the pending bullet. -/
theorem C5_continuation_amended_witness :
    pyStrip "  more text  " ≠ "" ∧
    isHeaderLine (pyStrip "  more text  ") = false ∧
    pyStartswith (pyStrip "  more text  ") "-" = false ∧
    parseLine ⟨initSections, SecName.improvements, "A"⟩ "  more text  " =
      Except.ok ⟨initSections, SecName.improvements, "A more text"⟩ :=
  ⟨by decide, by decide, by decide, by
    have h := C5_continuation_amended ⟨initSections, SecName.improvements, "A"⟩
      "  more text  " rfl (by decide) (by decide) (by decide)
    exact h⟩

/-- C6 counterexample: for the improvements list `["Add tests"]`, feeding
the rendered bullet line `"- Add tests"` back through the parser puts the
line into `overview` (a bullet is only recognized while the improvements
section is active) and leaves `improvements` empty, so the list is not
reproduced; prepending the improvements header instead makes the re-parse
raise `AttributeError`. -/
theorem C6_roundtrip_counterexample :
    parse_documentation (renderBullets ["Add tests"]) =
      Except.ok ⟨"- Add tests", "", "", "", ""⟩ ∧
    (Sections.mk "- Add tests" "" "" "" "").improvements ≠ "Add tests" ∧
    parse_documentation ("Improvements:" ++ "\n" ++ renderBullets ["Add tests"]) =
      Except.error attrErr := by
  refine ⟨by decide, by decide, by decide⟩

/-- C6 (amended): every successful parse leaves the `improvements` field
the empty string — the parser can never populate it, since the only write
raises — so the only improvements list the round trip can reproduce is
the empty one. -/
theorem C6_improvements_always_empty (raw : String) (s : Sections)
    (h : parse_documentation raw = Except.ok s) : s.improvements = "" := by
  unfold parse_documentation at h
  have hi := parseLines_ok_improvements (pySplitNL raw) ⟨initSections, SecName.overview, ""⟩ s h
  simpa [initSections] using hi

/-- Witness for the amended C6 at the input `"x"`. -/
theorem C6_improvements_always_empty_witness :
    parse_documentation "x" = Except.ok ⟨"x", "", "", "", ""⟩ ∧
    (Sections.mk "x" "" "" "" "").improvements = "" :=
  ⟨by decide, C6_improvements_always_empty "x" ⟨"x", "", "", "", ""⟩ (by decide)⟩

/-- C7 counterexample: on the `--file` CLI path (main.py lines 462-474)
there is no input validation, so for the empty code input the outcome
depends on the model client — the model call is attempted, contradicting
the claim that every blank input is rejected with zero network
interaction. -/
theorem C7_cli_counterexample :
    pyStrip "" = "" ∧
    cliGenerateDocumentation (fun _ _ => ModelResult.failure "boom") "" "python" ≠
      cliGenerateDocumentation (fun _ _ => ModelResult.success "ok") "" "python" := by
  refine ⟨by decide, by decide⟩

/-- C7 (amended): on the interactive menu path a blank or whitespace-only
code input is rejected on the input-error path before the model client is
consulted, and `validate_code_input` returns invalid exactly when the
stripped input is empty; the `--file` CLI path performs no such
validation. -/
theorem C7_blank_input_amended :
    (∀ (client : ModelClient) (code language : String), pyStrip code = "" →
      menuGenerateDocumentation client code language =
        Except.error "Code input cannot be empty") ∧
    (∀ code : String, (validate_code_input code).1 = false ↔ pyStrip code = "") := by
  constructor
  · intro client code language h
    simp [menuGenerateDocumentation, validate_code_input, h]
  · intro code
    by_cases h : pyStrip code = "" <;> simp [validate_code_input, h]

/-- Witness for the amended C7 at the whitespace-only input `"   "`. -/
theorem C7_blank_input_amended_witness :
    pyStrip "   " = "" ∧
    menuGenerateDocumentation (fun _ _ => ModelResult.success "ok") "   " "python" =
      Except.error "Code input cannot be empty" :=
  ⟨by decide,
    C7_blank_input_amended.1 (fun _ _ => ModelResult.success "ok") "   " "python" (by decide)⟩

/-- C8: when the model call inside `generate_documentation` fails, the
operation returns the single-key error dictionary with a human-readable
message and never propagates the exception (the embedding is a total
function), and an error document is never equal to a valid parsed
document — the two shapes are mutually exclusive. -/
theorem C8_model_failure_error_doc (client : ModelClient) (code language msg : String)
    (h : client docSystemPrompt (docPrompt language code) = ModelResult.failure msg) :
    generate_documentation client code language =
      DocResult.errorDoc ("Failed to generate documentation: " ++ msg) ∧
    ∀ s : Sections,
      DocResult.errorDoc ("Failed to generate documentation: " ++ msg) ≠ DocResult.doc s := by
  constructor
  · unfold generate_documentation
    rw [h]
  · intro s hcontra
    cases hcontra

/-- Witness for C8 with a client that always raises. -/
theorem C8_model_failure_error_doc_witness :
    (fun _ _ => ModelResult.failure "boom" : ModelClient) docSystemPrompt
      (docPrompt "python" "print(1)") = ModelResult.failure "boom" ∧
    generate_documentation (fun _ _ => ModelResult.failure "boom") "print(1)" "python" =
      DocResult.errorDoc ("Failed to generate documentation: " ++ "boom") :=
  ⟨rfl,
    (C8_model_failure_error_doc (fun _ _ => ModelResult.failure "boom")
      "print(1)" "python" "boom" rfl).1⟩

/-- C9: besides the five numbered header prefixes, a trimmed line
beginning with the literal prefix `Improvements:` also switches the
current section to `improvements` and is itself discarded (main.py
line 265), so the recognized header set has six members. -/
theorem C9_improvements_header (st : PState) (rawLine : String)
    (h : pyStartswith (pyStrip rawLine) "Improvements:" = true) :
    parseLine st rawLine = Except.ok { st with current := SecName.improvements } := by
  have hne : pyStrip rawLine ≠ "" :=
    pyStartswith_ne_empty (pyStrip rawLine) "Improvements:" (by decide) h
  have hI : (pyStrip rawLine).data.head? = some 'I' :=
    pyStartswith_head (pyStrip rawLine) "Improvements:" 'I' ("mprovements:".data) rfl h
  have h1 : pyStartswith (pyStrip rawLine) "1. Brief Overview:" = false :=
    pyStartswith_false_of_head (pyStrip rawLine) "1. Brief Overview:" 'I' '1' hI rfl (by decide)
  have h2 : pyStartswith (pyStrip rawLine) "2. Detailed Function Documentation:" = false :=
    pyStartswith_false_of_head (pyStrip rawLine) "2. Detailed Function Documentation:" 'I' '2' hI rfl (by decide)
  have h3 : pyStartswith (pyStrip rawLine) "3. Parameters and Return Values:" = false :=
    pyStartswith_false_of_head (pyStrip rawLine) "3. Parameters and Return Values:" 'I' '3' hI rfl (by decide)
  have h4 : pyStartswith (pyStrip rawLine) "4. Usage Examples:" = false :=
    pyStartswith_false_of_head (pyStrip rawLine) "4. Usage Examples:" 'I' '4' hI rfl (by decide)
  simp [parseLine, parseStrippedLine, hne, h1, h2, h3, h4, h]

/-- Witness for C9 at a concrete `Improvements:` header line in the
default `overview` state. -/
theorem C9_improvements_header_witness :
    pyStartswith (pyStrip "Improvements: none") "Improvements:" = true ∧
    parseLine ⟨initSections, SecName.overview, ""⟩ "Improvements: none" =
      Except.ok ⟨initSections, SecName.improvements, ""⟩ :=
  ⟨by decide, by
    have h := C9_improvements_header ⟨initSections, SecName.overview, ""⟩
      "Improvements: none" (by decide)
    exact h⟩

/-- C10: `generate_docstring` never raises (the embedding is total): on a
successful model call it returns the response text stripped of
surrounding whitespace, and on any model-call failure it returns the
in-band string `"Failed to generate docstring: "` followed by the
message — a plain string beginning with that prefix, not an error-shaped
document. -/
theorem C10_generate_docstring_total (client : ModelClient) (code style : String) :
    (∀ text, client docstringSystemPrompt (docstringPrompt style code) = ModelResult.success text →
      generate_docstring client code style = pyStrip text) ∧
    (∀ msg, client docstringSystemPrompt (docstringPrompt style code) = ModelResult.failure msg →
      generate_docstring client code style = "Failed to generate docstring: " ++ msg ∧
      pyStartswith (generate_docstring client code style) "Failed to generate docstring: " = true) := by
  constructor
  · intro text h
    unfold generate_docstring
    rw [h]
  · intro msg h
    have he : generate_docstring client code style = "Failed to generate docstring: " ++ msg := by
      unfold generate_docstring
      rw [h]
    refine ⟨he, ?_⟩
    rw [he]
    exact pyStartswith_append_self "Failed to generate docstring: " msg

/-- Witness for C10 with one always-succeeding and one always-raising
client. -/
theorem C10_generate_docstring_total_witness :
    (fun _ _ => ModelResult.success "  docstring text  " : ModelClient) docstringSystemPrompt
      (docstringPrompt "google" "def f(): pass") = ModelResult.success "  docstring text  " ∧
    generate_docstring (fun _ _ => ModelResult.success "  docstring text  ") "def f(): pass" "google" =
      pyStrip "  docstring text  " ∧
    generate_docstring (fun _ _ => ModelResult.failure "boom") "def f(): pass" "google" =
      "Failed to generate docstring: " ++ "boom" :=
  ⟨rfl,
    (C10_generate_docstring_total (fun _ _ => ModelResult.success "  docstring text  ")
      "def f(): pass" "google").1 "  docstring text  " rfl,
    ((C10_generate_docstring_total (fun _ _ => ModelResult.failure "boom")
      "def f(): pass" "google").2 "boom" rfl).1⟩
